import Mathlib

/-!
Shallow embedding of the crux-form repository's state core.

The repository contains three evolving variants of the same design:
  * `core/src/field.rs` + `core/src/form.rs` — the validated-field and form
    aggregate used by both app reducers (embedded as `CField` / `CForm`);
  * `shared/src/app.rs` — the root reducer `App` that is actually wired up in
    `shared/src/lib.rs` (embedded as `appUpdate` over `Model`);
  * `src/form_app.rs` — the earlier `FormApp` reducer without the address
    sub-flow (embedded as `formAppUpdate`);
  * `shared/src/events/form.rs` + `shared/src/events/address.rs` — the
    handler-split variant (embedded as `HField` with the `Validatable`
    capability, and `AddressHandler`).

Machine integers: the only numeric state is `Option<u32>` for the age field;
ages are embedded as `Nat` with the u32 range enforced at the parse boundary
(`parseU32`), exactly where the Rust code enforces it.

Effects are embedded as a list of declarative effect values in emission
order; crux `Command`s that chain a follow-up event are embedded by also
returning the list of chained events.
-/

namespace CruxForm

/-- A declarative side effect returned by a reducer: a render request or an
outbound HTTP GET with a fully formed url. -/
inductive Effect where
  | render : Effect
  | httpGet (url : String) : Effect
  deriving DecidableEq, Repr

/-! ## core/src/field.rs — `Field<T>` with an optional stored validator -/

/-- `core/src/field.rs` `Field<T>`: value, initial value, bookkeeping flags and
an optional validator returning `none` for Ok and `some msg` for Err. -/
structure CField (α : Type) where
  value : α
  initial_value : α
  touched : Bool
  dirty : Bool
  error : Option String
  valid : Bool
  editing : Bool
  validator : Option (α → Option String)

/-- The outcome of running an optional stored validator on a value: a missing
validator accepts everything (`Field::validate`'s `else` branch). -/
def runValidator {α : Type} (validator : Option (α → Option String)) (v : α) : Option String :=
  match validator with
  | some vf => vf v
  | none => none

/-- `Field::validate`: run the stored validator on the current value; with no
validator the field is unconditionally valid. -/
def CField.validate (f : CField α) : CField α :=
  match runValidator f.validator f.value with
  | none => { f with valid := true, error := none }
  | some msg => { f with valid := false, error := some msg }

/-- `Field::new`: start with `value = initial_value`, all flags clear, then
run the initial validation. -/
def CField.new (initial : α) (validator : Option (α → Option String)) : CField α :=
  CField.validate
    { value := initial, initial_value := initial, touched := false, dirty := false,
      error := none, valid := true, editing := false, validator := validator }

/-- `Field::update_value`: store the value, recompute `dirty`, set `touched`,
re-validate. -/
def CField.update_value [DecidableEq α] (f : CField α) (new_value : α) : CField α :=
  CField.validate
    { f with value := new_value, dirty := decide (new_value ≠ f.initial_value), touched := true }

/-- `Field::set_editing`: set the editing flag; when turning editing on, the
field is also marked touched. -/
def CField.set_editing (f : CField α) (e : Bool) : CField α :=
  let f := { f with editing := e }
  if e then { f with touched := true } else f

/-- `Field::touch`: set `touched` only; the re-validation call is commented
out in the source. -/
def CField.touch (f : CField α) : CField α :=
  { f with touched := true }

/-- `Field::reset`: back to the initial value with flags cleared, then
re-validate. -/
def CField.reset (f : CField α) : CField α :=
  CField.validate
    { f with value := f.initial_value, touched := false, dirty := false, editing := false }

/-- `Field::set_error`: overwrite the error and derive `valid` from it. -/
def CField.set_error (f : CField α) (e : Option String) : CField α :=
  { f with error := e, valid := e.isNone }

/-! ## core/src/form.rs — the form aggregate and its four validators -/

/-- Rust's `str::trim`: drop leading and trailing whitespace (embedded over
the character list so it evaluates definitionally). -/
def rustTrim (s : String) : String :=
  ⟨((s.data.dropWhile Char.isWhitespace).reverse.dropWhile Char.isWhitespace).reverse⟩

/-- Rust's `str::contains(char)` (embedded over the character list so it
evaluates definitionally). -/
def rustContains (s : String) (c : Char) : Bool :=
  s.data.contains c

/-- Username validator closure from `Form::default` in `core/src/form.rs`. -/
def usernameValidator (v : String) : Option String :=
  if (rustTrim v).isEmpty then some "Username cannot be empty"
  else if v.utf8ByteSize < 3 then some "Username must be at least 3 characters"
  else none

/-- Email validator closure from `Form::default` in `core/src/form.rs`. -/
def emailValidator (v : String) : Option String :=
  if (rustTrim v).isEmpty then some "Email cannot be empty"
  else if !(rustContains v '@') || !(rustContains v '.') then some "Invalid email format"
  else none

/-- Age validator closure from `Form::default` in `core/src/form.rs`; `none`
(unset) is acceptable. -/
def ageValidator (v : Option Nat) : Option String :=
  match v with
  | some a => if 18 ≤ a && a ≤ 120 then none else some "Age must be between 18 and 120"
  | none => none

/-- Address validator closure from `Form::default` in `core/src/form.rs`. -/
def addressValidator (v : String) : Option String :=
  if (rustTrim v).isEmpty then some "Address cannot be empty" else none

/-- `core/src/form.rs` `Form`: four validated fields plus lifecycle flags. -/
structure CForm where
  username : CField String
  email : CField String
  age : CField (Option Nat)
  address : CField String
  submitted : Bool
  is_editing : Bool

/-- `Form::default`: empty fields with their validators already run, form
unlocked and not submitted. -/
def defaultCForm : CForm where
  username := CField.new "" (some usernameValidator)
  email := CField.new "" (some emailValidator)
  age := CField.new none (some ageValidator)
  address := CField.new "" (some addressValidator)
  submitted := false
  is_editing := true

/-- `Form::validate_all`: re-run every field's validator. -/
def CForm.validate_all (f : CForm) : CForm :=
  { f with username := f.username.validate, email := f.email.validate,
           age := f.age.validate, address := f.address.validate }

/-- `Form::is_valid`: conjunction of the four fields' valid flags. -/
def CForm.is_valid (f : CForm) : Bool :=
  f.username.valid && f.email.valid && f.age.valid && f.address.valid

/-- `Form::touch_all`: touch every field (no re-validation in `Field::touch`). -/
def CForm.touch_all (f : CForm) : CForm :=
  { f with username := f.username.touch, email := f.email.touch,
           age := f.age.touch, address := f.address.touch }

/-- `Form::reset`: replace the four fields with freshly defaulted ones, clear
`submitted`, unlock the form. -/
def CForm.reset (_f : CForm) : CForm :=
  { username := defaultCForm.username, email := defaultCForm.email,
    age := defaultCForm.age, address := defaultCForm.address,
    submitted := false, is_editing := true }

/-- `Form::set_editing`: set the form flag and cascade to every field. -/
def CForm.set_editing (f : CForm) (e : Bool) : CForm :=
  { f with is_editing := e,
           username := f.username.set_editing e, email := f.email.set_editing e,
           age := f.age.set_editing e, address := f.address.set_editing e }

/-- `Form::can_submit`: valid and still editable. -/
def CForm.can_submit (f : CForm) : Bool :=
  f.is_valid && f.is_editing

/-! ## shared/src/app.rs — the wired root reducer `App` -/

/-- `shared/src/address.rs` `AddressSuggestion`: a value type compared by full
structural equality; `combined` is the derived display string. -/
structure AddressSuggestion where
  street : String
  city : String
  postcode : String
  country : String
  combined : String
  deriving DecidableEq, Repr

/-- `shared/src/address.rs` `AddressSuggestionsResult`. -/
inductive AddressSuggestionsResult where
  | success (suggestions : List AddressSuggestion) : AddressSuggestionsResult
  | error : AddressSuggestionsResult
  deriving DecidableEq, Repr

/-- `FieldIdent` from `shared/src/app.rs`. -/
inductive FieldIdent where
  | username | email | age | address
  deriving DecidableEq, Repr

/-- The inbound `Event` enum of `shared/src/app.rs`. -/
inductive Event where
  | updateValue (ident : FieldIdent) (value : String)
  | touchField (ident : FieldIdent)
  | setFieldEditing (ident : FieldIdent) (editing : Bool)
  | submit
  | edit
  | resetForm
  | fetchAddressSuggestions (query : String)
  | addressSuggestionsReceived (result : AddressSuggestionsResult)
  | selectAddressSuggestion (suggestion : AddressSuggestion)
  deriving DecidableEq, Repr

/-- `shared/src/app.rs` `Model`: the core form plus the suggestion list. -/
structure Model where
  form : CForm
  address_suggestions : List AddressSuggestion

/-- `Model::default`. -/
def defaultModel : Model :=
  { form := defaultCForm, address_suggestions := [] }

/-- `ADDRESS_API_URL` constant from `shared/src/app.rs`. -/
def addressApiUrl : String := "http://localhost:8000/api/suggestions"

/-- Rust's `str::parse::<u32>()`: an optional leading `+`, then one or more
ASCII digits, with the result required to fit in 32 bits; anything else is a
parse failure, which the reducers map to "unset". -/
def parseU32 (s : String) : Option Nat :=
  let t := if s.startsWith "+" then s.drop 1 else s
  if t.isEmpty then none
  else if t.all Char.isDigit then
    let n := t.foldl (fun acc c => acc * 10 + (c.toNat - 48)) 0
    if n < 4294967296 then some n else none
  else none

/-- `App::update` from `shared/src/app.rs`: the reducer that `shared/src/lib.rs`
wires into the bridge. Returns the new model and the effects in emission
order. HTTP continuations are delivered as later `addressSuggestionsReceived`
events by the shell, outside this function. -/
def appUpdate (event : Event) (m : Model) : Model × List Effect :=
  match event with
  | .updateValue ident value =>
    if !m.form.is_editing then (m, [])
    else
      match ident with
      | .username =>
        ({ m with form := { m.form with username := m.form.username.update_value value } },
         [.render])
      | .email =>
        ({ m with form := { m.form with email := m.form.email.update_value value } },
         [.render])
      | .age =>
        ({ m with form := { m.form with age := m.form.age.update_value (parseU32 value) } },
         [.render])
      | .address =>
        let m := { m with form := { m.form with address := m.form.address.update_value value } }
        if m.form.is_editing then
          (m, [.httpGet (addressApiUrl ++ "?query=" ++ value)])
        else (m, [.render])
  | .touchField ident =>
    if !m.form.is_editing then (m, [])
    else
      match ident with
      | .username =>
        ({ m with form := { m.form with username := m.form.username.touch } }, [.render])
      | .email =>
        ({ m with form := { m.form with email := m.form.email.touch } }, [.render])
      | .age =>
        ({ m with form := { m.form with age := m.form.age.touch } }, [.render])
      | .address =>
        ({ m with form := { m.form with address := m.form.address.touch },
                  address_suggestions := [] }, [.render])
  | .setFieldEditing ident editing =>
    if !m.form.is_editing && editing then (m, [])
    else
      match ident with
      | .username =>
        ({ m with form := { m.form with username := m.form.username.set_editing editing } },
         [.render])
      | .email =>
        ({ m with form := { m.form with email := m.form.email.set_editing editing } },
         [.render])
      | .age =>
        ({ m with form := { m.form with age := m.form.age.set_editing editing } }, [.render])
      | .address =>
        let m := { m with form := { m.form with address := m.form.address.set_editing editing } }
        if !editing then ({ m with address_suggestions := [] }, [.render])
        else (m, [.render])
  | .submit =>
    let f := (m.form.touch_all).validate_all
    if f.is_valid then
      (({ m with form := ({ f with submitted := true }).set_editing false,
                 address_suggestions := [] }), [.render])
    else
      ({ m with form := { f with submitted := false } }, [.render])
  | .edit =>
    ({ m with form := ({ m.form with submitted := false }).set_editing true,
              address_suggestions := [] }, [.render])
  | .resetForm =>
    ({ m with form := m.form.reset, address_suggestions := [] }, [.render])
  | .fetchAddressSuggestions query =>
    if m.form.is_editing then
      (m, [.httpGet (addressApiUrl ++ "?query=" ++ query)])
    else (m, [])
  | .addressSuggestionsReceived result =>
    match result with
    | .success suggestions =>
      ({ m with address_suggestions :=
          suggestions.filter (fun s => s.combined != m.form.address.value) }, [.render])
    | .error =>
      ({ m with address_suggestions := [] }, [.render])
  | .selectAddressSuggestion suggestion =>
    if !m.form.is_editing then (m, [])
    else
      ({ m with form :=
          { m.form with address := (m.form.address.update_value suggestion.combined).touch },
                address_suggestions := [] }, [.render])

/-! ## src/form_app.rs — the earlier `FormApp` reducer (no address sub-flow) -/

/-- The inbound `Event` enum of `src/form_app.rs`. -/
inductive FormEvent where
  | updateValue (ident : FieldIdent) (value : String)
  | touchField (ident : FieldIdent)
  | setFieldEditing (ident : FieldIdent) (editing : Bool)
  | submit
  | edit
  | resetForm
  deriving DecidableEq, Repr

/-- `FormApp::update` from `src/form_app.rs`; its model is just the core
`Form`. Note the extra `is_editing` guard on `Submit`, absent from the other
two reducers. -/
def formAppUpdate (event : FormEvent) (form : CForm) : CForm × List Effect :=
  match event with
  | .updateValue ident value =>
    if !form.is_editing then (form, [])
    else
      match ident with
      | .username => ({ form with username := form.username.update_value value }, [.render])
      | .email => ({ form with email := form.email.update_value value }, [.render])
      | .age => ({ form with age := form.age.update_value (parseU32 value) }, [.render])
      | .address => ({ form with address := form.address.update_value value }, [.render])
  | .touchField ident =>
    if !form.is_editing then (form, [])
    else
      match ident with
      | .username => ({ form with username := form.username.touch }, [.render])
      | .email => ({ form with email := form.email.touch }, [.render])
      | .age => ({ form with age := form.age.touch }, [.render])
      | .address => ({ form with address := form.address.touch }, [.render])
  | .setFieldEditing ident editing =>
    if !form.is_editing && editing then (form, [])
    else
      match ident with
      | .username => ({ form with username := form.username.set_editing editing }, [.render])
      | .email => ({ form with email := form.email.set_editing editing }, [.render])
      | .age => ({ form with age := form.age.set_editing editing }, [.render])
      | .address => ({ form with address := form.address.set_editing editing }, [.render])
  | .submit =>
    if !form.is_editing then (form, [])
    else
      let f := (form.touch_all).validate_all
      if f.is_valid then
        (({ f with submitted := true }).set_editing false, [.render])
      else
        ({ f with submitted := false }, [.render])
  | .edit =>
    (({ form with submitted := false }).set_editing true, [.render])
  | .resetForm =>
    (form.reset, [.render])

/-! ## shared/src/events/form.rs — the handler-split `Field` and capability -/

/-- The `Validatable` trait from `shared/src/events/form.rs`: a value type
decides its own validity and error text. -/
class Validatable (α : Type) where
  is_valid : α → Bool
  error_message : α → Option String

/-- The handler-split `Field<T>` from `shared/src/events/form.rs`: no stored
validator; validation goes through the value's `Validatable` capability. -/
structure HField (α : Type) where
  value : α
  initial_value : α
  touched : Bool
  dirty : Bool
  error : Option String
  valid : Bool
  editing : Bool
  deriving Repr

/-- `Field::validate` (handler-split): derive `valid` and `error` from the
capability. -/
def HField.validate [Validatable α] (f : HField α) : HField α :=
  { f with valid := Validatable.is_valid f.value, error := Validatable.error_message f.value }

/-- `Field::set_value` (handler-split): store the value, recompute `dirty`,
re-validate; `touched` is not changed. -/
def HField.set_value [DecidableEq α] [Validatable α] (f : HField α) (value : α) : HField α :=
  HField.validate { f with value := value, dirty := decide (value ≠ f.initial_value) }

/-- `Field::mark_touched` (handler-split): set `touched` and re-validate. -/
def HField.mark_touched [Validatable α] (f : HField α) : HField α :=
  HField.validate { f with touched := true }

/-- `Field::set_editing` (handler-split): pure flag flip. -/
def HField.set_editing (f : HField α) (editing : Bool) : HField α :=
  { f with editing := editing }

/-- `Username` newtype from `shared/src/events/form.rs`. -/
structure Username where
  val : String
  deriving DecidableEq, Repr

/-- `impl Validatable for Username`: at least 3 bytes, with a distinct message
for the empty string. -/
instance : Validatable Username where
  is_valid u := 3 ≤ u.val.utf8ByteSize
  error_message u :=
    if u.val.isEmpty then some "Username cannot be empty"
    else if u.val.utf8ByteSize < 3 then some "Username must be at least 3 characters"
    else none

/-- `impl Validatable for String` (the address field): non-empty. -/
instance : Validatable String where
  is_valid s := !s.isEmpty
  error_message s := if s.isEmpty then some "Field cannot be empty" else none

/-- `impl Validatable for Option<u32>` (the age field): unset is valid, set
must lie in [18, 120]. -/
instance : Validatable (Option Nat) where
  is_valid v :=
    match v with
    | some age => 18 ≤ age && age ≤ 120
    | none => true
  error_message v :=
    match v with
    | some age => if age < 18 || 120 < age then some "Age must be between 18 and 120" else none
    | none => none

/-! ## shared/src/events/address.rs — the `AddressHandler` sub-flow -/

/-- `AddressHandler` state: the current suggestion list and the API base url. -/
structure AddressHandler where
  suggestions : List AddressSuggestion
  api_url : String
  deriving DecidableEq, Repr

/-- `AddressHandler::new`. -/
def AddressHandler.new (api_url : String) : AddressHandler :=
  { suggestions := [], api_url := api_url }

/-- `AddressHandler::handle_fetch_suggestions`: unconditionally issue an HTTP
GET against `{api_url}?query={query}`; the continuation delivering the result
as a `SuggestionsReceived` event lives in the shell. -/
def AddressHandler.handle_fetch_suggestions (h : AddressHandler) (query : String) :
    AddressHandler × List Effect :=
  (h, [.httpGet (h.api_url ++ "?query=" ++ query)])

/-- `AddressHandler::handle_suggestions_received`: on success replace the list
wholesale, on error clear it; always render. -/
def AddressHandler.handle_suggestions_received (h : AddressHandler)
    (result : AddressSuggestionsResult) : AddressHandler × List Effect :=
  match result with
  | .success suggestions => ({ h with suggestions := suggestions }, [.render])
  | .error => ({ h with suggestions := [] }, [.render])

/-- `AddressHandler::handle_select_suggestion`: clear the list, chain an
`UpdateValue` event for the address field, render. The third component lists
the chained events. -/
def AddressHandler.handle_select_suggestion (h : AddressHandler) (s : AddressSuggestion) :
    AddressHandler × List Effect × List Event :=
  ({ h with suggestions := [] }, [.render],
   [Event.updateValue FieldIdent.address s.combined])

/-- `AddressHandler::handle_clear_suggestions`: empty the list and render. -/
def AddressHandler.handle_clear_suggestions (h : AddressHandler) :
    AddressHandler × List Effect :=
  ({ h with suggestions := [] }, [.render])

/-- A concrete suggestion, used by witnesses and counterexamples (the same
record the repository's own tests use). -/
def sampleSuggestion : AddressSuggestion :=
  { street := "123 Main St", city := "London", postcode := "SW1A 1AA",
    country := "UK", combined := "123 Main St, London, SW1A 1AA, UK" }

/-! ## Frame lemmas about the field operations -/

theorem CField.validate_value (f : CField α) : f.validate.value = f.value := by
  unfold CField.validate
  cases runValidator f.validator f.value <;> rfl

theorem CField.validate_initial (f : CField α) : f.validate.initial_value = f.initial_value := by
  unfold CField.validate
  cases runValidator f.validator f.value <;> rfl

theorem CField.validate_touched (f : CField α) : f.validate.touched = f.touched := by
  unfold CField.validate
  cases runValidator f.validator f.value <;> rfl

theorem CField.validate_dirty (f : CField α) : f.validate.dirty = f.dirty := by
  unfold CField.validate
  cases runValidator f.validator f.value <;> rfl

theorem CField.validate_editing (f : CField α) : f.validate.editing = f.editing := by
  unfold CField.validate
  cases runValidator f.validator f.value <;> rfl

theorem CField.validate_validator (f : CField α) : f.validate.validator = f.validator := by
  unfold CField.validate
  cases runValidator f.validator f.value <;> rfl

theorem CField.validate_valid (f : CField α) :
    f.validate.valid = (runValidator f.validator f.value).isNone := by
  unfold CField.validate
  cases runValidator f.validator f.value <;> rfl

theorem CField.validate_error (f : CField α) :
    f.validate.error = runValidator f.validator f.value := by
  unfold CField.validate
  cases runValidator f.validator f.value <;> rfl

theorem CField.set_editing_editing (f : CField α) (e : Bool) :
    (f.set_editing e).editing = e := by
  unfold CField.set_editing
  cases e <;> rfl

theorem CField.set_editing_touched (f : CField α) (e : Bool) :
    (f.set_editing e).touched = (e || f.touched) := by
  unfold CField.set_editing
  cases e <;> rfl

theorem CField.set_editing_value (f : CField α) (e : Bool) :
    (f.set_editing e).value = f.value := by
  unfold CField.set_editing
  cases e <;> rfl

theorem CField.set_editing_initial (f : CField α) (e : Bool) :
    (f.set_editing e).initial_value = f.initial_value := by
  unfold CField.set_editing
  cases e <;> rfl

theorem CField.set_editing_dirty (f : CField α) (e : Bool) :
    (f.set_editing e).dirty = f.dirty := by
  unfold CField.set_editing
  cases e <;> rfl

theorem CField.set_editing_error (f : CField α) (e : Bool) :
    (f.set_editing e).error = f.error := by
  unfold CField.set_editing
  cases e <;> rfl

theorem CField.set_editing_valid (f : CField α) (e : Bool) :
    (f.set_editing e).valid = f.valid := by
  unfold CField.set_editing
  cases e <;> rfl

theorem CField.set_editing_validator (f : CField α) (e : Bool) :
    (f.set_editing e).validator = f.validator := by
  unfold CField.set_editing
  cases e <;> rfl

theorem CForm.touch_all_username (f : CForm) : f.touch_all.username = f.username.touch := rfl

theorem CForm.touch_all_email (f : CForm) : f.touch_all.email = f.email.touch := rfl

theorem CForm.touch_all_age (f : CForm) : f.touch_all.age = f.age.touch := rfl

theorem CForm.touch_all_address (f : CForm) : f.touch_all.address = f.address.touch := rfl

theorem CForm.touch_all_is_editing (f : CForm) : f.touch_all.is_editing = f.is_editing := rfl

theorem CForm.validate_all_username (f : CForm) :
    f.validate_all.username = f.username.validate := rfl

theorem CForm.validate_all_email (f : CForm) : f.validate_all.email = f.email.validate := rfl

theorem CForm.validate_all_age (f : CForm) : f.validate_all.age = f.age.validate := rfl

theorem CForm.validate_all_address (f : CForm) :
    f.validate_all.address = f.address.validate := rfl

theorem CForm.validate_all_is_editing (f : CForm) :
    f.validate_all.is_editing = f.is_editing := rfl

theorem CForm.set_editing_username (f : CForm) (e : Bool) :
    (f.set_editing e).username = f.username.set_editing e := rfl

theorem CForm.set_editing_email (f : CForm) (e : Bool) :
    (f.set_editing e).email = f.email.set_editing e := rfl

theorem CForm.set_editing_age (f : CForm) (e : Bool) :
    (f.set_editing e).age = f.age.set_editing e := rfl

theorem CForm.set_editing_address (f : CForm) (e : Bool) :
    (f.set_editing e).address = f.address.set_editing e := rfl

theorem CForm.set_editing_is_editing (f : CForm) (e : Bool) :
    (f.set_editing e).is_editing = e := rfl

theorem CForm.set_editing_submitted (f : CForm) (e : Bool) :
    (f.set_editing e).submitted = f.submitted := rfl

theorem CForm.touch_all_submitted (f : CForm) : f.touch_all.submitted = f.submitted := rfl

theorem CForm.validate_all_submitted (f : CForm) :
    f.validate_all.submitted = f.submitted := rfl

/-! ## The claims -/

/-- C1 (counterexample): the claim says a `SuggestionsReceived(Success(list))`
stores the received list with no filtering against the current address value.
In the wired reducer `App::update` this is false: with the address field
holding exactly `sampleSuggestion.combined`, receiving
`Success [sampleSuggestion]` stores the empty list, not the received
one-element list. -/
theorem c1_counterexample :
    (appUpdate
      (Event.addressSuggestionsReceived (AddressSuggestionsResult.success [sampleSuggestion]))
      { form := { defaultCForm with address :=
          { defaultCForm.address with value := sampleSuggestion.combined } },
        address_suggestions := [] }).1.address_suggestions = [] ∧
    [sampleSuggestion] ≠ ([] : List AddressSuggestion) := by
  exact ⟨rfl, by decide⟩

/-- C1 (amended): the `AddressHandler` replaces the suggestion list wholesale
on `Success` and renders; the wired root reducer `App::update` instead stores
the received list with every suggestion whose `combined` string equals the
current address value filtered out, leaves the form untouched, and renders. -/
theorem c1_suggestions_received_amended (h : AddressHandler) (l : List AddressSuggestion)
    (m : Model) :
    (h.handle_suggestions_received (AddressSuggestionsResult.success l)).1.suggestions = l ∧
    (h.handle_suggestions_received (AddressSuggestionsResult.success l)).2 = [Effect.render] ∧
    (appUpdate (Event.addressSuggestionsReceived (AddressSuggestionsResult.success l))
        m).1.address_suggestions
      = l.filter (fun s => s.combined != m.form.address.value) ∧
    (appUpdate (Event.addressSuggestionsReceived (AddressSuggestionsResult.success l)) m).1.form
      = m.form ∧
    (appUpdate (Event.addressSuggestionsReceived (AddressSuggestionsResult.success l)) m).2
      = [Effect.render] := by
  exact ⟨rfl, rfl, rfl, rfl, rfl⟩

/-- C5 (counterexample): the claim says the touch operation re-runs
validation. The core `Field::touch` does not: starting from a field whose
stored `valid`/`error` are stale (reachable through `set_error(None)` on an
invalid empty address), `touch` sets `touched` but leaves `valid = true` and
`error = none` even though the field's own validator rejects the current
value. -/
theorem c5_counterexample :
    ((CField.set_error (CField.new "" (some addressValidator)) none).touch).touched = true ∧
    ((CField.set_error (CField.new "" (some addressValidator)) none).touch).valid = true ∧
    ((CField.set_error (CField.new "" (some addressValidator)) none).touch).error = none ∧
    addressValidator ((CField.set_error (CField.new "" (some addressValidator)) none).touch).value
      = some "Address cannot be empty" := by
  exact ⟨rfl, rfl, rfl, by decide⟩

/-- C5 (amended): the handler-split `Field::mark_touched` sets `touched` and
re-validates, so `valid`/`error` afterwards reflect the current value; the
core `Field::touch` only sets `touched` and changes nothing else — in
particular it does not re-validate. -/
theorem c5_touch_amended {α β : Type} [Validatable α] (f : HField α) (g : CField β) :
    (f.mark_touched.touched = true ∧
     f.mark_touched.valid = Validatable.is_valid f.value ∧
     f.mark_touched.error = Validatable.error_message f.value ∧
     f.mark_touched.value = f.value ∧ f.mark_touched.initial_value = f.initial_value ∧
     f.mark_touched.dirty = f.dirty ∧ f.mark_touched.editing = f.editing) ∧
    (g.touch.touched = true ∧ g.touch.value = g.value ∧
     g.touch.initial_value = g.initial_value ∧ g.touch.dirty = g.dirty ∧
     g.touch.error = g.error ∧ g.touch.valid = g.valid ∧ g.touch.editing = g.editing) := by
  exact ⟨⟨rfl, rfl, rfl, rfl, rfl, rfl, rfl⟩, ⟨rfl, rfl, rfl, rfl, rfl, rfl, rfl⟩⟩

/-- C6 (counterexample): the claim says `set_editing` changes only the
editing flag. The core `Field::set_editing(true)` also marks the field
touched: on a freshly constructed untouched field, `touched` flips from
`false` to `true`. -/
theorem c6_counterexample :
    (CField.new "" (some addressValidator)).touched = false ∧
    ((CField.new "" (some addressValidator)).set_editing true).touched = true := by
  exact ⟨rfl, rfl⟩

/-- C6 (amended): the handler-split `Field::set_editing` is a pure flag flip
(everything but `editing` unchanged, no re-validation); the core
`Field::set_editing` additionally sets `touched` when switching editing on
(`touched` becomes `e || touched`), with value, initial value, dirty, error
and valid still unchanged and no re-validation in either variant. -/
theorem c6_set_editing_amended {α β : Type} (f : HField α) (e : Bool) (g : CField β) :
    ((f.set_editing e).editing = e ∧ (f.set_editing e).value = f.value ∧
     (f.set_editing e).initial_value = f.initial_value ∧ (f.set_editing e).touched = f.touched ∧
     (f.set_editing e).dirty = f.dirty ∧ (f.set_editing e).error = f.error ∧
     (f.set_editing e).valid = f.valid) ∧
    ((g.set_editing e).editing = e ∧ (g.set_editing e).touched = (e || g.touched) ∧
     (g.set_editing e).value = g.value ∧ (g.set_editing e).initial_value = g.initial_value ∧
     (g.set_editing e).dirty = g.dirty ∧ (g.set_editing e).error = g.error ∧
     (g.set_editing e).valid = g.valid) := by
  refine ⟨⟨rfl, rfl, rfl, rfl, rfl, rfl, rfl⟩, ?_⟩
  exact ⟨CField.set_editing_editing g e, CField.set_editing_touched g e,
    CField.set_editing_value g e, CField.set_editing_initial g e, CField.set_editing_dirty g e,
    CField.set_editing_error g e, CField.set_editing_valid g e⟩

/-- C7: immediately after the value-setting operation, `dirty` equals
`value ≠ initial_value` and `valid`/`error` equal the validation result for
the new value — for the handler-split `Field::set_value` (via the
`Validatable` capability) and for the core `Field::update_value` (via the
stored validator). -/
theorem c7_value_setting_invariant {α β : Type} [DecidableEq α] [Validatable α] [DecidableEq β]
    (f : HField α) (v : α) (g : CField β) (w : β) :
    ((f.set_value v).dirty = decide (v ≠ f.initial_value) ∧
     (f.set_value v).valid = Validatable.is_valid v ∧
     (f.set_value v).error = Validatable.error_message v) ∧
    ((g.update_value w).dirty = decide (w ≠ g.initial_value) ∧
     (g.update_value w).valid = (runValidator g.validator w).isNone ∧
     (g.update_value w).error = runValidator g.validator w) := by
  refine ⟨⟨rfl, rfl, rfl⟩, ?_, ?_, ?_⟩
  · rw [CField.update_value, CField.validate_dirty]
  · rw [CField.update_value, CField.validate_valid]
  · rw [CField.update_value, CField.validate_error]

/-- C9: `SuggestionsReceived(Error)` always leaves the suggestion list empty,
the form untouched, and requests a render — and it is indistinguishable from
receiving an empty `Success` result, both in the wired `App::update` and in
`AddressHandler::handle_suggestions_received`. -/
theorem c9_error_clears_suggestions (m : Model) (h : AddressHandler) :
    (appUpdate (Event.addressSuggestionsReceived AddressSuggestionsResult.error)
        m).1.address_suggestions = [] ∧
    (appUpdate (Event.addressSuggestionsReceived AddressSuggestionsResult.error) m).1.form
      = m.form ∧
    (appUpdate (Event.addressSuggestionsReceived AddressSuggestionsResult.error) m).2
      = [Effect.render] ∧
    appUpdate (Event.addressSuggestionsReceived AddressSuggestionsResult.error) m
      = appUpdate (Event.addressSuggestionsReceived (AddressSuggestionsResult.success [])) m ∧
    h.handle_suggestions_received AddressSuggestionsResult.error
      = h.handle_suggestions_received (AddressSuggestionsResult.success []) := by
  exact ⟨rfl, rfl, rfl, rfl, rfl⟩

/-- C8: from every prior state, `ResetForm` yields a form that is editing and
not submitted, with every field untouched and clean, the three required
fields invalid with their canonical empty-value messages, the age field valid
with no error, the suggestion list cleared, and a render requested. -/
theorem c8_reset_form (m : Model) :
    (appUpdate Event.resetForm m).1.form.is_editing = true ∧
    (appUpdate Event.resetForm m).1.form.submitted = false ∧
    (appUpdate Event.resetForm m).1.form.username.touched = false ∧
    (appUpdate Event.resetForm m).1.form.username.dirty = false ∧
    (appUpdate Event.resetForm m).1.form.email.touched = false ∧
    (appUpdate Event.resetForm m).1.form.email.dirty = false ∧
    (appUpdate Event.resetForm m).1.form.age.touched = false ∧
    (appUpdate Event.resetForm m).1.form.age.dirty = false ∧
    (appUpdate Event.resetForm m).1.form.address.touched = false ∧
    (appUpdate Event.resetForm m).1.form.address.dirty = false ∧
    (appUpdate Event.resetForm m).1.form.username.valid = false ∧
    (appUpdate Event.resetForm m).1.form.username.error = some "Username cannot be empty" ∧
    (appUpdate Event.resetForm m).1.form.email.valid = false ∧
    (appUpdate Event.resetForm m).1.form.email.error = some "Email cannot be empty" ∧
    (appUpdate Event.resetForm m).1.form.address.valid = false ∧
    (appUpdate Event.resetForm m).1.form.address.error = some "Address cannot be empty" ∧
    (appUpdate Event.resetForm m).1.form.age.valid = true ∧
    (appUpdate Event.resetForm m).1.form.age.error = none ∧
    (appUpdate Event.resetForm m).1.address_suggestions = [] ∧
    (appUpdate Event.resetForm m).2 = [Effect.render] := by
  exact ⟨rfl, rfl, rfl, rfl, rfl, rfl, rfl, rfl, rfl, rfl, rfl, rfl, rfl, rfl, rfl, rfl, rfl,
    rfl, rfl, rfl⟩

/-- C3: while the form is editing, `UpdateValue` on the address field stores
the new value and produces exactly one effect — an HTTP GET whose url is the
base url with the raw text appended verbatim after `?query=` — in the wired
`App::update`; and `AddressHandler::handle_fetch_suggestions` likewise emits
exactly one such GET for its own base url. -/
theorem c3_address_update_emits_http (m : Model) (v : String) (ah : AddressHandler)
    (h : m.form.is_editing = true) :
    appUpdate (Event.updateValue FieldIdent.address v) m
      = ({ m with form := { m.form with address := m.form.address.update_value v } },
         [Effect.httpGet (addressApiUrl ++ "?query=" ++ v)]) ∧
    ah.handle_fetch_suggestions v = (ah, [Effect.httpGet (ah.api_url ++ "?query=" ++ v)]) := by
  refine ⟨?_, rfl⟩
  simp [appUpdate, h]

/-- Witness for C3 at a concrete model and query string. -/
theorem c3_witness :
    appUpdate (Event.updateValue FieldIdent.address "abc") defaultModel
      = ({ defaultModel with form :=
            { defaultModel.form with address := defaultModel.form.address.update_value "abc" } },
         [Effect.httpGet (addressApiUrl ++ "?query=" ++ "abc")]) ∧
    (AddressHandler.new addressApiUrl).handle_fetch_suggestions "abc"
      = (AddressHandler.new addressApiUrl,
         [Effect.httpGet ((AddressHandler.new addressApiUrl).api_url ++ "?query=" ++ "abc")]) :=
  c3_address_update_emits_http defaultModel "abc" (AddressHandler.new addressApiUrl) rfl

/-- C10: while the form is editing, `TouchField` on the address field marks
it touched and empties the suggestion list, whereas `TouchField` on the
username, email or age field leaves the suggestion list unchanged. -/
theorem c10_touch_address_clears_suggestions (m : Model) (h : m.form.is_editing = true) :
    (appUpdate (Event.touchField FieldIdent.address) m).1.address_suggestions = [] ∧
    (appUpdate (Event.touchField FieldIdent.address) m).1.form.address.touched = true ∧
    (appUpdate (Event.touchField FieldIdent.username) m).1.address_suggestions
      = m.address_suggestions ∧
    (appUpdate (Event.touchField FieldIdent.email) m).1.address_suggestions
      = m.address_suggestions ∧
    (appUpdate (Event.touchField FieldIdent.age) m).1.address_suggestions
      = m.address_suggestions := by
  simp [appUpdate, h, CField.touch]

/-- Witness for C10 at a concrete model carrying a nonempty suggestion list. -/
theorem c10_witness :
    (appUpdate (Event.touchField FieldIdent.address)
        { form := defaultCForm, address_suggestions := [sampleSuggestion] }).1.address_suggestions
      = [] ∧
    (appUpdate (Event.touchField FieldIdent.address)
        { form := defaultCForm,
          address_suggestions := [sampleSuggestion] }).1.form.address.touched = true ∧
    (appUpdate (Event.touchField FieldIdent.username)
        { form := defaultCForm, address_suggestions := [sampleSuggestion] }).1.address_suggestions
      = ({ form := defaultCForm, address_suggestions := [sampleSuggestion] } : Model
          ).address_suggestions ∧
    (appUpdate (Event.touchField FieldIdent.email)
        { form := defaultCForm, address_suggestions := [sampleSuggestion] }).1.address_suggestions
      = ({ form := defaultCForm, address_suggestions := [sampleSuggestion] } : Model
          ).address_suggestions ∧
    (appUpdate (Event.touchField FieldIdent.age)
        { form := defaultCForm, address_suggestions := [sampleSuggestion] }).1.address_suggestions
      = ({ form := defaultCForm, address_suggestions := [sampleSuggestion] } : Model
          ).address_suggestions :=
  c10_touch_address_clears_suggestions
    { form := defaultCForm, address_suggestions := [sampleSuggestion] } rfl

/-- C4 (counterexample): the claim quantifies over every state, but in the
wired `App::update` a `SelectAddressSuggestion` on a locked form
(`is_editing = false`) is a no-op: the state is unchanged (so the address
value does not become `combined` and the nonempty suggestion list is not
emptied) and no render effect is produced. -/
theorem c4_counterexample :
    appUpdate (Event.selectAddressSuggestion sampleSuggestion)
        { form := { defaultCForm with is_editing := false },
          address_suggestions := [sampleSuggestion] }
      = ({ form := { defaultCForm with is_editing := false },
           address_suggestions := [sampleSuggestion] }, []) ∧
    ({ form := { defaultCForm with is_editing := false },
       address_suggestions := [sampleSuggestion] } : Model).form.address.value
      ≠ sampleSuggestion.combined ∧
    ({ form := { defaultCForm with is_editing := false },
       address_suggestions := [sampleSuggestion] } : Model).address_suggestions ≠ [] := by
  refine ⟨rfl, by decide, by decide⟩

/-- C4 (amended): while the form is editing, `SelectAddressSuggestion` sets
the address field's value to the suggestion's `combined` string, empties the
suggestion list, and produces exactly one render effect; on a locked form the
event is a no-op with no effects. -/
theorem c4_select_suggestion_amended (s : AddressSuggestion) (m : Model)
    (h : m.form.is_editing = true) :
    (appUpdate (Event.selectAddressSuggestion s) m).1.form.address.value = s.combined ∧
    (appUpdate (Event.selectAddressSuggestion s) m).1.address_suggestions = [] ∧
    (appUpdate (Event.selectAddressSuggestion s) m).2 = [Effect.render] ∧
    appUpdate (Event.selectAddressSuggestion s)
        { m with form := { m.form with is_editing := false } }
      = ({ m with form := { m.form with is_editing := false } }, []) := by
  refine ⟨?_, ?_, ?_, ?_⟩
  · simp [appUpdate, h, CField.touch, CField.update_value, CField.validate_value]
  · simp [appUpdate, h]
  · simp [appUpdate, h]
  · rfl

/-- Witness for C4 at a concrete suggestion and the default (editing) model. -/
theorem c4_witness :
    (appUpdate (Event.selectAddressSuggestion sampleSuggestion)
        defaultModel).1.form.address.value = sampleSuggestion.combined ∧
    (appUpdate (Event.selectAddressSuggestion sampleSuggestion)
        defaultModel).1.address_suggestions = [] ∧
    (appUpdate (Event.selectAddressSuggestion sampleSuggestion) defaultModel).2
      = [Effect.render] ∧
    appUpdate (Event.selectAddressSuggestion sampleSuggestion)
        { defaultModel with form := { defaultModel.form with is_editing := false } }
      = ({ defaultModel with form := { defaultModel.form with is_editing := false } }, []) :=
  c4_select_suggestion_amended sampleSuggestion defaultModel rfl

/-- C2 (counterexample): the claim quantifies over every form state including
locked ones, but the `FormApp::update` variant guards `Submit` behind
`is_editing`: on a locked default form, `Submit` returns the state unchanged
(no field is touched) and requests no render. -/
theorem c2_counterexample :
    formAppUpdate FormEvent.submit { defaultCForm with is_editing := false }
      = ({ defaultCForm with is_editing := false }, []) ∧
    (formAppUpdate FormEvent.submit
        { defaultCForm with is_editing := false }).1.username.touched = false := by
  exact ⟨rfl, rfl⟩

/-- C2 (amended): in the wired `App::update`, `Submit` unconditionally
touches all four fields and re-validates them (each field's `valid`
afterwards is its validator's verdict on its current value); when the
re-validated form is valid it sets `submitted`, locks the form (cascading
`editing = false` to every field) and clears the suggestion list, and when it
is invalid it leaves `submitted = false` and `is_editing` (and the fields'
editing flags) unchanged; a render is requested in both cases. In the
`FormApp` variant, `Submit` on a locked form is instead a no-op with no
effects. -/
theorem c2_submit_amended (m : Model) :
    (appUpdate Event.submit m).1.form.username.touched = true ∧
    (appUpdate Event.submit m).1.form.email.touched = true ∧
    (appUpdate Event.submit m).1.form.age.touched = true ∧
    (appUpdate Event.submit m).1.form.address.touched = true ∧
    (appUpdate Event.submit m).1.form.username.valid
      = (runValidator m.form.username.validator m.form.username.value).isNone ∧
    (appUpdate Event.submit m).1.form.email.valid
      = (runValidator m.form.email.validator m.form.email.value).isNone ∧
    (appUpdate Event.submit m).1.form.age.valid
      = (runValidator m.form.age.validator m.form.age.value).isNone ∧
    (appUpdate Event.submit m).1.form.address.valid
      = (runValidator m.form.address.validator m.form.address.value).isNone ∧
    (appUpdate Event.submit m).1.form.submitted
      = ((m.form.touch_all).validate_all).is_valid ∧
    (appUpdate Event.submit m).1.form.is_editing
      = (if ((m.form.touch_all).validate_all).is_valid then false else m.form.is_editing) ∧
    (appUpdate Event.submit m).1.form.username.editing
      = (if ((m.form.touch_all).validate_all).is_valid then false
         else m.form.username.editing) ∧
    (appUpdate Event.submit m).1.form.email.editing
      = (if ((m.form.touch_all).validate_all).is_valid then false else m.form.email.editing) ∧
    (appUpdate Event.submit m).1.form.age.editing
      = (if ((m.form.touch_all).validate_all).is_valid then false else m.form.age.editing) ∧
    (appUpdate Event.submit m).1.form.address.editing
      = (if ((m.form.touch_all).validate_all).is_valid then false
         else m.form.address.editing) ∧
    (appUpdate Event.submit m).1.address_suggestions
      = (if ((m.form.touch_all).validate_all).is_valid then []
         else m.address_suggestions) ∧
    (appUpdate Event.submit m).2 = [Effect.render] ∧
    (∀ g : CForm, formAppUpdate FormEvent.submit { g with is_editing := false }
        = ({ g with is_editing := false }, [])) := by
  cases hv : ((m.form.touch_all).validate_all).is_valid <;>
  · simp only [appUpdate, hv]
    simp [CForm.touch_all_username, CForm.touch_all_email, CForm.touch_all_age,
      CForm.touch_all_address, CForm.touch_all_is_editing, CForm.validate_all_username,
      CForm.validate_all_email, CForm.validate_all_age, CForm.validate_all_address,
      CForm.validate_all_is_editing, CForm.set_editing_username, CForm.set_editing_email,
      CForm.set_editing_age, CForm.set_editing_address, CForm.set_editing_is_editing,
      CForm.set_editing_submitted, CForm.touch_all_submitted, CForm.validate_all_submitted,
      CField.validate_touched, CField.validate_valid, CField.validate_value,
      CField.validate_validator, CField.validate_editing, CField.set_editing_touched,
      CField.set_editing_editing, CField.set_editing_valid, CField.touch, formAppUpdate]

end CruxForm
